import Mathlib

/-!
Verification development for the MICP data manager.

This file gives a shallow embedding, in Lean 4, of the core routines of the
repository: the heuristic well-log metadata extractor (`app/log_loader.py`),
the Excel row-normalization pipeline (`app/excel_loader.py`), the statistics
aggregator (`app/crud.py`) and the import transaction flow
(`app/main.py` + `app/database.py`).  Text is modelled as Lean `String`
(lists of characters); Python regular-expression matching is modelled by a
small backtracking engine with Python `re` semantics (leftmost match, greedy
quantifiers, ordered alternation, IGNORECASE where the source uses it).
Python floats appearing in the pipeline are modelled as exact decimal numbers
(mantissa times a power of ten), which is adequate here because every float
the claims mention is produced by parsing a short decimal literal and is only
compared for equality.
-/

/-! ## Python string primitives -/

/-- Characters that Python treats as whitespace for `str.strip` and for the
regular-expression class `\s` on `str` patterns (Unicode whitespace).  The
heuristic parser only ever sees text decoded from `latin-1`, i.e. code points
below 256, for which this set is exact; the higher Unicode space code points
are included for completeness. -/
def pyIsSpace (c : Char) : Bool :=
  c.toNat = 9 ∨ c.toNat = 10 ∨ c.toNat = 11 ∨ c.toNat = 12 ∨ c.toNat = 13 ∨
  (28 ≤ c.toNat ∧ c.toNat ≤ 31) ∨ c.toNat = 32 ∨ c.toNat = 133 ∨ c.toNat = 160 ∨
  c.toNat = 0x1680 ∨ (0x2000 ≤ c.toNat ∧ c.toNat ≤ 0x200A) ∨
  c.toNat = 0x2028 ∨ c.toNat = 0x2029 ∨ c.toNat = 0x202F ∨
  c.toNat = 0x205F ∨ c.toNat = 0x3000

/-- Lowercasing of a single character, as Python `str.lower` acts on ASCII.
All inputs appearing in the claims are ASCII, where this is exact. -/
def asciiLower (c : Char) : Char :=
  if 65 ≤ c.toNat ∧ c.toNat ≤ 90 then Char.ofNat (c.toNat + 32) else c

/-- The class `[A-Za-z]` (code points 65–90 and 97–122). -/
def isAsciiAlpha (c : Char) : Bool :=
  (65 ≤ c.toNat ∧ c.toNat ≤ 90) ∨ (97 ≤ c.toNat ∧ c.toNat ≤ 122)

/-- The class `[0-9]` (code points 48–57). -/
def isAsciiDigit (c : Char) : Bool := 48 ≤ c.toNat ∧ c.toNat ≤ 57

/-- Python `str.strip()` on a character list: drop leading and trailing
whitespace. -/
def pyStripL (l : List Char) : List Char :=
  ((l.dropWhile pyIsSpace).reverse.dropWhile pyIsSpace).reverse

/-- Python `str.strip()`. -/
def pyStrip (s : String) : String := String.mk (pyStripL s.data)

/-- Python `str.lower()` (ASCII fragment). -/
def pyLower (s : String) : String := String.mk (s.data.map asciiLower)

/-- Does `needle` occur at the start of `hay`?  (Helper for the substring
test `needle in hay`.) -/
def startsList : List Char → List Char → Bool
  | [], _ => true
  | _ :: _, [] => false
  | a :: as, b :: bs => a = b ∧ startsList as bs

/-- Python `needle in hay` contiguous-substring test on character lists. -/
def containsSub (needle : List Char) : List Char → Bool
  | [] => startsList needle []
  | c :: t => startsList needle (c :: t) ∨ containsSub needle t

/-- Characters `str.splitlines` breaks on (besides the two-character
sequence CR LF, handled separately): LF, VT, FF, CR, FS, GS, RS, NEL, LS, PS. -/
def isLineBreak (c : Char) : Bool :=
  c.toNat = 10 ∨ c.toNat = 11 ∨ c.toNat = 12 ∨ c.toNat = 13 ∨
  c.toNat = 28 ∨ c.toNat = 29 ∨ c.toNat = 30 ∨ c.toNat = 133 ∨
  c.toNat = 0x2028 ∨ c.toNat = 0x2029

/-- Worker for `pySplitlines`: CR LF counts as a single break, and a break
that ends the string does not open a trailing empty line. -/
def slGo : List Char → List Char → List (List Char)
  | acc, [] => [acc]
  | acc, '\r' :: '\n' :: rest2 => acc :: (if rest2 = [] then [] else slGo [] rest2)
  | acc, c :: rest =>
    if isLineBreak c then acc :: (if rest = [] then [] else slGo [] rest)
    else slGo (acc ++ [c]) rest

/-- Python `str.splitlines()`. -/
def pySplitlines (s : String) : List String :=
  if s.data = [] then [] else (slGo [] s.data).map String.mk

/-! ## A backtracking regular-expression engine with Python `re` semantics

Only the constructs appearing in `app/log_loader.py` are needed: literals
(matched case-insensitively, as every literal in the source occurs under
`re.IGNORECASE`), single-character classes, concatenation, ordered
alternation, greedy option `(?:...)?`, greedy counted repetition of a
character class (`*`, `+`, `{3,}`, `{1,15}`, `?`) and numbered capture
groups. -/

inductive RE where
  | lit (cs : List Char)
  | cls (p : Char → Bool)
  | seq (a b : RE)
  | alt (a b : RE)
  | opt (a : RE)
  | rep (p : Char → Bool) (lo : Nat) (hi : Option Nat)
  | grp (i : Nat) (a : RE)

/-- Captured groups of one match: group index paired with the captured
characters. -/
abbrev Caps := List (Nat × List Char)

/-- Case-insensitive literal match at the head of the input; returns the rest
of the input on success. -/
def litHere : List Char → List Char → Option (List Char)
  | [], s => some s
  | _ :: _, [] => none
  | a :: as, b :: bs => if asciiLower a = asciiLower b then litHere as bs else none

/-- Length of the maximal run of class characters at the head of the input,
clipped to an optional upper bound. -/
def boundedRun (p : Char → Bool) (hi : Option Nat) (s : List Char) : Nat :=
  let n := (s.takeWhile p).length
  match hi with
  | some h => min n h
  | none => n

/-- Try repetition counts `lo + i`, `lo + i - 1`, …, `lo` in that order
(greedy: the longest repetition is tried first, giving characters back on
failure of the continuation, exactly as Python backtracks). -/
def tryDown {α : Type} (k : Nat → Option α) (lo : Nat) : Nat → Option α
  | 0 => k lo
  | i + 1 =>
    match k (lo + i + 1) with
    | some r => some r
    | none => tryDown k lo i

/-- The matcher, in continuation-passing style.  `reM pat s caps k` tries to
match `pat` at the very start of `s`; on each candidate success it calls the
continuation `k` with the remaining input and captures, backtracking to the
next candidate when `k` fails.  Alternation tries its left branch first and
option/repetition are greedy, as in Python `re`. -/
def reM {α : Type} : RE → List Char → Caps → (List Char → Caps → Option α) → Option α
  | .lit cs, s, caps, k =>
    match litHere cs s with
    | some s1 => k s1 caps
    | none => none
  | .cls _, [], _, _ => none
  | .cls p, c :: rest, caps, k => if p c then k rest caps else none
  | .seq a b, s, caps, k => reM a s caps (fun s1 caps1 => reM b s1 caps1 k)
  | .alt a b, s, caps, k =>
    match reM a s caps k with
    | some r => some r
    | none => reM b s caps k
  | .opt a, s, caps, k =>
    match reM a s caps k with
    | some r => some r
    | none => k s caps
  | .rep p lo hi, s, caps, k =>
    let n := boundedRun p hi s
    if n < lo then none else tryDown (fun m => k (s.drop m) caps) lo (n - lo)
  | .grp i a, s, caps, k =>
    reM a s caps (fun s1 caps1 => k s1 ((i, s.take (s.length - s1.length)) :: caps1))

/-- Match `pat` anchored at the start of `s`; returns the length of the match
and the captures. -/
def mtchTop (pat : RE) (s : List Char) : Option (Nat × Caps) :=
  reM pat s [] (fun rest caps => some (s.length - rest.length, caps))

/-- Worker for `reSearch`: try to match at each successive position, leftmost
first.  Returns (start index, match length, captures). -/
def searchAux (pat : RE) : List Char → Nat → Option (Nat × Nat × Caps)
  | [], idx =>
    match mtchTop pat [] with
    | some (len, caps) => some (idx, len, caps)
    | none => none
  | c :: t, idx =>
    match mtchTop pat (c :: t) with
    | some (len, caps) => some (idx, len, caps)
    | none => searchAux pat t (idx + 1)

/-- Python `re.search`: the leftmost match. -/
def reSearch (pat : RE) (s : List Char) : Option (Nat × Nat × Caps) :=
  searchAux pat s 0

/-- Worker for `finditer`, with fuel (the fuel `length + 1` supplied by
`finditer` is always sufficient, since every step consumes at least one
character of the input). -/
def finditerAux (pat : RE) : Nat → List Char → List Caps
  | 0, _ => []
  | fuel + 1, s =>
    match reSearch pat s with
    | none => []
    | some (idx, len, caps) => caps :: finditerAux pat fuel (s.drop (idx + max len 1))

/-- Python `re.finditer`: all non-overlapping matches, left to right, each
next search resuming after the previous match (advancing one character past
an empty match, as Python does). -/
def finditer (pat : RE) (s : List Char) : List Caps :=
  finditerAux pat (s.length + 1) s

/-- Python `match.group(i)` for the patterns used here (each group matches at
most once per match). -/
def capStr (i : Nat) (caps : Caps) : String :=
  match caps.find? (fun x => x.1 == i) with
  | some x => String.mk x.2
  | none => ""

/-! ## The patterns of `app/log_loader.py` -/

/-- The class `[:=-]`. -/
def sepCls (c : Char) : Bool := c = ':' ∨ c = '=' ∨ c = '-'

/-- The class `[A-Za-z0-9_\-\s]` of the well-name token. -/
def tokWellCls (c : Char) : Bool :=
  isAsciiAlpha c ∨ isAsciiDigit c ∨ c = '_' ∨ c = '-' ∨ pyIsSpace c

/-- Shorthand for `\s*`. -/
def wsStar : RE := .rep pyIsSpace 0 none

/-- Pattern `WELL(?:\s+NAME)?\s*[:=-]\s*([A-Za-z0-9_\-\s]{3,})` (IGNORECASE). -/
def wellNamePat1 : RE :=
  .seq (.lit "WELL".data)
    (.seq (.opt (.seq (.rep pyIsSpace 1 none) (.lit "NAME".data)))
      (.seq wsStar
        (.seq (.cls sepCls)
          (.seq wsStar (.grp 1 (.rep tokWellCls 3 none))))))

/-- Pattern `NAME\s*[:=-]\s*([A-Za-z0-9_\-\s]{3,})\s*WELL` (IGNORECASE). -/
def wellNamePat2 : RE :=
  .seq (.lit "NAME".data)
    (.seq wsStar
      (.seq (.cls sepCls)
        (.seq wsStar
          (.seq (.grp 1 (.rep tokWellCls 3 none))
            (.seq wsStar (.lit "WELL".data))))))

/-- `_unique_preserve` of `app/log_loader.py`: strip each item, drop the ones
that strip to nothing or whose lowercase form was already seen, keep the
stripped first occurrence. -/
def uniquePreserveGo (seen : List String) : List String → List String
  | [] => []
  | item :: rest =>
    let key := pyStrip item
    if key = "" then uniquePreserveGo seen rest
    else if pyLower key ∈ seen then uniquePreserveGo seen rest
    else key :: uniquePreserveGo (pyLower key :: seen) rest

/-- `_unique_preserve`. -/
def unique_preserve (items : List String) : List String :=
  uniquePreserveGo [] items

/-- `_extract_well_names`: all matches of the first pattern, then all matches
of the second pattern; each candidate is `group(1)` stripped and kept only if
non-empty; finally case-insensitive first-occurrence deduplication. -/
def extract_well_names (text : String) : List String :=
  let cands1 := (finditer wellNamePat1 text.data).filterMap
    (fun caps => let cand := pyStrip (capStr 1 caps)
                 if cand = "" then none else some cand)
  let cands2 := (finditer wellNamePat2 text.data).filterMap
    (fun caps => let cand := pyStrip (capStr 1 caps)
                 if cand = "" then none else some cand)
  unique_preserve (cands1 ++ cands2)

/-- The delimiter class `[\s,:;]` of `re.split` in `_extract_curve_names`. -/
def delimCls (c : Char) : Bool := pyIsSpace c ∨ c = ',' ∨ c = ':' ∨ c = ';'

/-- Worker for `pySplitDelims`.  The boolean records whether we are inside a
delimiter run (so that a run of delimiters yields exactly one split, as the
`+` quantifier does in `re.split(r"[\s,:;]+", line)`). -/
def splitDelimGo (cur : List Char) (inRun : Bool) : List Char → List String
  | [] => [String.mk cur]
  | c :: rest =>
    if delimCls c then
      if inRun then splitDelimGo [] true rest
      else String.mk cur :: splitDelimGo [] true rest
    else splitDelimGo (cur ++ [c]) false rest

/-- Python `re.split(r"[\s,:;]+", line)`: an empty leading (trailing) token
appears when the line starts (ends) with a delimiter, and consecutive
delimiters produce a single split. -/
def pySplitDelims (line : String) : List String :=
  splitDelimGo [] false line.data

/-- The class `[A-Za-z0-9_.-]` of the curve-token shape. -/
def curveTailCls (c : Char) : Bool :=
  isAsciiAlpha c ∨ isAsciiDigit c ∨ c = '_' ∨ c = '.' ∨ c = '-'

/-- `re.fullmatch(r"[A-Za-z][A-Za-z0-9_.-]{1,15}", token)`: a letter followed
by 1 to 15 characters of the tail class. -/
def tokenShape (s : String) : Bool :=
  match s.data with
  | [] => false
  | c :: rest =>
    isAsciiAlpha c ∧ 1 ≤ rest.length ∧ rest.length ≤ 15 ∧ rest.all curveTailCls

/-- The candidate-line test of `_extract_curve_names`: the lowercased line
contains "curve", "mnemonic" or "mnem" as a substring. -/
def hasCurveTrigger (line : String) : Bool :=
  containsSub "curve".data (pyLower line).data ∨
  containsSub "mnemonic".data (pyLower line).data ∨
  containsSub "mnem".data (pyLower line).data

/-- Tokens contributed by a single line in `_extract_curve_names`: empty
lines are skipped, non-candidate lines contribute nothing, candidate lines
contribute their delimiter-split tokens that match the token shape. -/
def curveLineTokens (line : String) : List String :=
  if line = "" then []
  else if hasCurveTrigger line then (pySplitDelims line).filter tokenShape
  else []

/-- `_extract_curve_names`. -/
def extract_curve_names (text : String) : List String :=
  unique_preserve ((pySplitlines text).map curveLineTokens).flatten

/-! ## Depth extraction -/

/-- Python floats produced by the pipeline, modelled as exact decimals:
the value is `mant / 10 ^ exp`, with `exp` minimal (no trailing zero
digits in the fraction), so that equality of values is equality of
representations.  Exact for every decimal literal the claims mention. -/
structure PyFloat where
  mant : Int
  exp : Nat
deriving DecidableEq, Repr

def stripTrailingZeros (l : List Char) : List Char :=
  (l.reverse.dropWhile (fun c => c = '0')).reverse

def digitsToNat (l : List Char) : Nat :=
  l.foldl (fun acc c => acc * 10 + (c.toNat - 48)) 0

/-- Build the canonical `PyFloat` from a sign, integer digits and fraction
digits. -/
def mkPyFloat (neg : Bool) (intDs fracDs : List Char) : PyFloat :=
  let f := stripTrailingZeros fracDs
  let m : Nat := digitsToNat (intDs ++ f)
  { mant := if neg then -(m : Int) else (m : Int), exp := f.length }

/-- `_safe_float` of `app/log_loader.py`: `float(value)` guarded by
`try`/`except`, modelled for the decimal forms `-?digits(.digits)?` that the
surrounding capture groups can produce (any other string gives `none`, as
`float` raising `ValueError` gives `None` in the source). -/
def safe_float (s : String) : Option PyFloat :=
  let cs := s.data
  let neg := match cs with
    | '-' :: _ => true
    | _ => false
  let cs1 := if neg then cs.tail else cs
  let ds := cs1.takeWhile isAsciiDigit
  let rest := cs1.drop ds.length
  if ds = [] then none
  else
    match rest with
    | [] => some (mkPyFloat neg ds [])
    | '.' :: fs =>
      if fs ≠ [] ∧ fs.all isAsciiDigit then some (mkPyFloat neg ds fs) else none
    | _ => none

/-- The number pattern `-?\d+(?:\.\d+)?`. -/
def numberRE : RE :=
  .seq (.rep (fun c => c = '-') 0 (some 1))
    (.seq (.rep isAsciiDigit 1 none)
      (.opt (.seq (.cls (fun c => c = '.')) (.rep isAsciiDigit 1 none))))

/-- Pattern `(?:start|from)\s*depth\s*[:=-]?\s*(-?\d+(?:\.\d+)?)`. -/
def startPat1 : RE :=
  .seq (.alt (.lit "start".data) (.lit "from".data))
    (.seq wsStar
      (.seq (.lit "depth".data)
        (.seq wsStar
          (.seq (.rep sepCls 0 (some 1)) (.seq wsStar (.grp 1 numberRE))))))

/-- Pattern `depth\s*\(start\)\s*[:=-]?\s*(-?\d+(?:\.\d+)?)`. -/
def startPat2 : RE :=
  .seq (.lit "depth".data)
    (.seq wsStar
      (.seq (.cls (fun c => c = '('))
        (.seq (.lit "start".data)
          (.seq (.cls (fun c => c = ')'))
            (.seq wsStar
              (.seq (.rep sepCls 0 (some 1)) (.seq wsStar (.grp 1 numberRE))))))))

/-- Pattern `(?:end|to)\s*depth\s*[:=-]?\s*(-?\d+(?:\.\d+)?)`. -/
def endPat1 : RE :=
  .seq (.alt (.lit "end".data) (.lit "to".data))
    (.seq wsStar
      (.seq (.lit "depth".data)
        (.seq wsStar
          (.seq (.rep sepCls 0 (some 1)) (.seq wsStar (.grp 1 numberRE))))))

/-- Pattern `depth\s*\(end\)\s*[:=-]?\s*(-?\d+(?:\.\d+)?)`. -/
def endPat2 : RE :=
  .seq (.lit "depth".data)
    (.seq wsStar
      (.seq (.cls (fun c => c = '('))
        (.seq (.lit "end".data)
          (.seq (.cls (fun c => c = ')'))
            (.seq wsStar
              (.seq (.rep sepCls 0 (some 1)) (.seq wsStar (.grp 1 numberRE))))))))

/-- The class `[-to]` under IGNORECASE: `-`, `t`, `o` and their uppercase
forms. -/
def dashToCls (c : Char) : Bool :=
  c = '-' ∨ c = 't' ∨ c = 'o' ∨ c = 'T' ∨ c = 'O'

/-- The combined-range fallback pattern
`depth\s*[:=-]?\s*(-?\d+(?:\.\d+)?)\s*[-to]+\s*(-?\d+(?:\.\d+)?)`. -/
def combinedDepthPat : RE :=
  .seq (.lit "depth".data)
    (.seq wsStar
      (.seq (.rep sepCls 0 (some 1))
        (.seq wsStar
          (.seq (.grp 1 numberRE)
            (.seq wsStar
              (.seq (.rep dashToCls 1 none)
                (.seq wsStar (.grp 2 numberRE))))))))

/-- `_search_first_float`: for each pattern in order, if it has a match
anywhere in the text, return `_safe_float` of its first group (even when that
is `None`); otherwise try the next pattern. -/
def search_first_float (t : String) : List RE → Option PyFloat
  | [] => none
  | p :: rest =>
    match reSearch p t.data with
    | some (_, _, caps) => safe_float (capStr 1 caps)
    | none => search_first_float t rest

def start_patterns : List RE := [startPat1, startPat2]

def end_patterns : List RE := [endPat1, endPat2]

/-- The combined-range fallback of `_extract_depths`: on a match, the first
captured number becomes the minimum and the second the maximum, in that
order, with no reordering. -/
def depth_range_fallback (t : String) : Option PyFloat × Option PyFloat :=
  match reSearch combinedDepthPat t.data with
  | some (_, _, caps) => (safe_float (capStr 1 caps), safe_float (capStr 2 caps))
  | none => (none, none)

/-- `_extract_depths`: explicit start/end patterns first; the combined
fallback only when both came out `None`. -/
def extract_depths (t : String) : Option PyFloat × Option PyFloat :=
  if search_first_float t start_patterns = none ∧ search_first_float t end_patterns = none
  then depth_range_fallback t
  else (search_first_float t start_patterns, search_first_float t end_patterns)

/-! ## The heuristic summary -/

structure WellLogSummary where
  well_names : List String
  curve_names : List String
  depth_min : Option PyFloat
  depth_max : Option PyFloat
  depth_unit : Option String
  notes : List String
deriving DecidableEq

/-- `_load_with_heuristics`, applied to the decoded text (file reading and
latin-1 decoding are outside the model; decoding with `errors="ignore"`
never fails). -/
def load_with_heuristics (text : String) : WellLogSummary :=
  { well_names := if extract_well_names text = [] then ["Not found"]
                  else extract_well_names text
    curve_names := extract_curve_names text
    depth_min := (extract_depths text).1
    depth_max := (extract_depths text).2
    depth_unit := none
    notes := ["Parsed using heuristic text search. Results may be approximate."] }

/-! ## The Excel row normalizer (`app/excel_loader.py`)

A worksheet is modelled as its column headers plus an ordered list of data
rows, each row an ordered list of cells — exactly the information
`pd.ExcelFile.parse` hands to the loop in `load_excel`.  A cell is a string,
a (decimal) float, an integer, a boolean, or the missing-value sentinel `na`
(covering both `None` and `NaN`, the two cases `pd.isna` recognises here).
The `.item()` unboxing of numpy scalars in `_clean_row` is the identity in
this model, since cells already carry plain values. -/

inductive Cell where
  | str (s : String)
  | float (f : PyFloat)
  | int (z : Int)
  | bool (b : Bool)
  | na
deriving DecidableEq

/-- `pd.isna(value)` on cell values: true exactly for the missing sentinel. -/
def cellIsNa (v : Cell) : Bool := v = Cell.na

/-- Rendering of a float by Python `str`, for floats that are exact short
decimals (the only ones this pipeline produces). -/
def floatRepr (f : PyFloat) : String :=
  let sign := if f.mant < 0 then "-" else ""
  let n := f.mant.natAbs
  if f.exp = 0 then sign ++ toString n ++ ".0"
  else
    let ds := (toString n).data
    let ds := if ds.length ≤ f.exp then List.replicate (f.exp + 1 - ds.length) '0' ++ ds else ds
    sign ++ String.mk (ds.take (ds.length - f.exp)) ++ "." ++ String.mk (ds.drop (ds.length - f.exp))

/-- Python `str(value)` on cell values. -/
def pyStr (v : Cell) : String :=
  match v with
  | .str s => s
  | .float f => floatRepr f
  | .int z => toString z
  | .bool b => if b then "True" else "False"
  | .na => "nan"

/-- `normalize_header` of `app/excel_loader.py`:
`header.strip().lower().replace(" ", "_")` — strip, lowercase, then replace
every space character (only the space character) by an underscore. -/
def normalize_header (header : String) : String :=
  String.mk (((pyStripL header.data).map asciiLower).map
    (fun c => if c = ' ' then '_' else c))

/-- Python `dict` lookup on an insertion-ordered association list. -/
def dictGet (row : List (String × Cell)) (k : String) : Option Cell :=
  (row.find? (fun kv => kv.1 == k)).map (fun kv => kv.2)

/-- Python `dict` insertion: overwrite keeps the original key position, a new
key goes to the end. -/
def dictSet (d : List (String × Cell)) (k : String) (v : Cell) : List (String × Cell) :=
  match d with
  | [] => [(k, v)]
  | (k1, v1) :: rest => if k1 = k then (k1, v) :: rest else (k1, v1) :: dictSet rest k v

/-- `_clean_row`: drop the entries whose value is missing (`pd.isna`); the
numpy `.item()` unboxing is the identity here. -/
def clean_row (row : List (String × Cell)) : List (String × Cell) :=
  row.filter (fun kv => ¬ cellIsNa kv.2)

/-- `_first_non_null`: walk the alias keys in order; a present string value
with non-blank strip is returned stripped; any other present value that is
not missing is returned through `str` (note that a present blank string falls
into this second branch and is returned unchanged, because `pd.isna` is false
on strings); a missing or absent value moves on to the next alias. -/
def first_non_null (row : List (String × Cell)) : List String → Option String
  | [] => none
  | k :: keys =>
    match dictGet row k with
    | some (Cell.str s) =>
      if pyStrip s ≠ "" then some (pyStrip s)
      else some (pyStr (Cell.str s))
    | some v => if cellIsNa v then first_non_null row keys else some (pyStr v)
    | none => first_non_null row keys

/-- The canonical record produced for one worksheet row. -/
structure RowRec where
  row_index : Nat
  company : Option String
  field : Option String
  well_name : Option String
  formation : Option String
  data : List (String × Cell)
deriving DecidableEq

/-- The row mapping `row.to_dict()`: normalized headers paired with the
row's cells (a short row is padded with missing values, as the DataFrame
fills absent cells with `NaN`). -/
def rowPairs : List String → List Cell → List (String × Cell)
  | [], _ => []
  | h :: hs, cs => (h, cs.headD Cell.na) :: rowPairs hs cs.tail

/-- Build the row dictionary with Python `dict` semantics (a duplicate
normalized header overwrites in place). -/
def buildRowDict (headers : List String) (cells : List Cell) : List (String × Cell) :=
  (rowPairs headers cells).foldl (fun d kv => dictSet d kv.1 kv.2) []

/-- The record built for the row at 0-based position `i` — the body of the
`for _, row in df.iterrows()` loop in `load_excel` (the `row_index` column
introduced by `reset_index` is the 0-based position, popped before
cleaning). -/
def mkRowRec (i : Nat) (rowDict : List (String × Cell)) : RowRec :=
  let cleaned := clean_row rowDict
  { row_index := i
    company := first_non_null cleaned ["company"]
    field := first_non_null cleaned ["field"]
    well_name := first_non_null cleaned ["well_name", "well"]
    formation := first_non_null cleaned ["formation", "formation_name"]
    data := cleaned }

/-- `load_excel`, restricted to a single worksheet: normalize the headers,
then produce one canonical record per data row, indexed by position.  An
empty worksheet yields the empty list. -/
def load_sheet (headers : List String) (rows : List (List Cell)) : List RowRec :=
  let nheaders := headers.map normalize_header
  (rows.enum).map (fun rc => mkRowRec rc.1 (buildRowDict nheaders rc.2))

/-- `load_excel` over a whole workbook: one entry per sheet, in order. -/
def load_excel (wb : List (String × List String × List (List Cell))) :
    List (String × List RowRec) :=
  wb.map (fun s => (s.1, load_sheet s.2.1 s.2.2))

/-! ## The aggregator (`app/crud.py`, `compute_stats`) -/

/-- A persisted record as `compute_stats` sees it: the resolved sheet name
(`none` models an unresolved sheet relation), the row index, and the three
extracted grouping fields. -/
structure DbRecord where
  sheet : Option String
  row_index : Nat
  company : Option String
  field : Option String
  formation : Option String
deriving DecidableEq

/-- Python truthiness of an optional string (`if record.company:`): false for
`None` and for the empty string, true otherwise — including whitespace-only
strings. -/
def truthyStr (o : Option String) : Bool :=
  match o with
  | some s => s ≠ ""
  | none => false

/-- `counter[key] += 1` on an insertion-ordered association list — the
observable content of both `Counter` and `defaultdict(int)` updates. -/
def bump (m : List (String × Nat)) (k : String) : List (String × Nat) :=
  match m with
  | [] => [(k, 1)]
  | (k1, n) :: rest => if k1 = k then (k1, n + 1) :: rest else (k1, n) :: bump rest k

/-- The six groupings returned by `compute_stats`. -/
structure Stats where
  wells_by_company : List (String × Nat)
  wells_by_field : List (String × Nat)
  wells_by_formation : List (String × Nat)
  wells_by_sheet : List (String × Nat)
  wells_per_row_bucket : List (String × Nat)
  sheet_row_counts : List (String × Nat)
deriving DecidableEq

def emptyStats : Stats := ⟨[], [], [], [], [], []⟩

/-- The row-bucket label `f"{(row_index // 10) * 10}-{(row_index // 10) * 10 + 9}"`. -/
def bucket_label (i : Nat) : String :=
  toString (i / 10 * 10) ++ "-" ++ toString (i / 10 * 10 + 9)

/-- The body of the `for record in records` loop of `compute_stats`. -/
def statsStep (st : Stats) (r : DbRecord) : Stats :=
  let sheet_name := match r.sheet with
    | some s => s
    | none => "Unknown"
  let st := { st with
    wells_by_sheet := bump st.wells_by_sheet sheet_name
    sheet_row_counts := bump st.sheet_row_counts sheet_name }
  let st := if truthyStr r.company
    then { st with wells_by_company := bump st.wells_by_company (r.company.getD "") }
    else st
  let st := if truthyStr r.field
    then { st with wells_by_field := bump st.wells_by_field (r.field.getD "") }
    else st
  let st := if truthyStr r.formation
    then { st with wells_by_formation := bump st.wells_by_formation (r.formation.getD "") }
    else st
  { st with wells_per_row_bucket := bump st.wells_per_row_bucket (bucket_label r.row_index) }

/-- `compute_stats`. -/
def compute_stats (records : List DbRecord) : Stats :=
  records.foldl statsStep emptyStats

/-! ## The import transaction (`app/main.py` with `app/database.py`)

The persistent store is the content of the three tables.  `get_session`
provides the transactional scope: the body's changes are committed only if
the body succeeds, and any failure leaves the store exactly as it was
(rollback).  Workbook parsing is represented by its result — `load_excel`
either returns the sheets or raises `ExcelIngestionError` with the message
`"Failed to read Excel file: <cause>"` — and in `import_project` it runs
before any insert, as in the source. -/

structure Store where
  projects : List (String × Option String)
  sheets : List (String × String)
  records : List (String × String × RowRec)
deriving DecidableEq

/-- All inserts of one import: the project row, one sheet row per worksheet,
and one record row per canonical record (`create_project`, `create_sheet`,
`bulk_insert_records`). -/
def insert_import (st : Store) (name : String) (desc : Option String)
    (sheetsData : List (String × List RowRec)) : Store :=
  { projects := st.projects ++ [(name, desc)]
    sheets := st.sheets ++ sheetsData.map (fun p => (name, p.1))
    records := st.records ++
      (sheetsData.map (fun p => p.2.map (fun r => (name, p.1, r)))).flatten }

/-- `get_session` of `app/database.py`: commit the body's result on success,
roll back to the original store on any exception (which is re-raised). -/
def with_session (st : Store) (body : Store → Except String Store) :
    Option String × Store :=
  match body st with
  | .ok st1 => (none, st1)
  | .error e => (some e, st)

/-- The `ExcelIngestionError` message raised by `load_excel` when the
workbook cannot be opened, carrying the underlying cause. -/
def ingestion_error_message (cause : String) : String :=
  "Failed to read Excel file: " ++ cause

/-- `import_project` of `app/main.py`, inside its session scope: the workbook
is parsed first (its outcome is the `loadResult` argument); on parse failure
the error propagates with nothing inserted; on success the project, sheets
and records are all inserted and committed together. -/
def import_project (st : Store) (name : String) (desc : Option String)
    (loadResult : Except String (List (String × List RowRec))) :
    Option String × Store :=
  with_session st (fun s =>
    match loadResult with
    | .error e => .error e
    | .ok sheetsData => .ok (insert_import s name desc sheetsData))

/-! ## Concrete inputs and auxiliary reformulations used by the claims -/

/-- The headers of the round-trip workbook of claim C1. -/
def c1Headers : List String := ["Company", "Field", "Well Name", "Formation", "Pressure"]

/-- The single data row of the round-trip workbook of claim C1
(`12.5 = 125 / 10^1`). -/
def c1Rows : List (List Cell) :=
  [[Cell.str "Acme", Cell.str "North", Cell.str "W-1", Cell.str "Shale",
    Cell.float ⟨125, 1⟩]]

/-- A cleaned row whose `well_name` is a whitespace-only string and whose
`well` alias holds a non-blank name (claim C4). -/
def c4Row : List (String × Cell) :=
  [("well_name", Cell.str "  "), ("well", Cell.str "Alpha")]

/-- A record whose company is a whitespace-only string (claim C6). -/
def c6Record : DbRecord :=
  { sheet := some "A", row_index := 0, company := some "   ",
    field := none, formation := none }

/-- Occurrence counting of a list of keys in first-seen order — the
reference shape for the grouping counters. -/
def countKeys (l : List String) : List (String × Nat) := l.foldl bump []

/-- The company keys `compute_stats` actually counts: one entry per record
with a truthy company. -/
def companyKeys (rs : List DbRecord) : List String :=
  rs.filterMap (fun r => if truthyStr r.company then some (r.company.getD "") else none)

/-- The field keys `compute_stats` actually counts. -/
def fieldKeys (rs : List DbRecord) : List String :=
  rs.filterMap (fun r => if truthyStr r.field then some (r.field.getD "") else none)

/-- The formation keys `compute_stats` actually counts. -/
def formationKeys (rs : List DbRecord) : List String :=
  rs.filterMap (fun r => if truthyStr r.formation then some (r.formation.getD "") else none)

/-- The sheet name a record is grouped under (`"Unknown"` when the sheet
relation is unresolved). -/
def sheetKeyOf (r : DbRecord) : String :=
  match r.sheet with
  | some s => s
  | none => "Unknown"

/-! ## Claim C1 — the Excel round trip -/

/-- C1 is false as stated: on the workbook with columns Company, Field,
Well Name, Formation, Pressure and the single row
("Acme","North","W-1","Shale",12.5), the produced record's attribute bag is
not the one-key mapping containing only "pressure" — the bag keeps all
original columns, e.g. it still has the key "company". -/
theorem C1_counterexample :
    (load_sheet c1Headers c1Rows).map (fun r => r.data) ≠
      [[("pressure", Cell.float ⟨125, 1⟩)]] ∧
    (load_sheet c1Headers c1Rows).map (fun r => dictGet r.data "company") =
      [some (Cell.str "Acme")] := by decide

/-- C1 (amended): the Row Normalizer produces exactly one canonical record
with row_index 0, company "Acme", field "North", well_name "W-1", formation
"Shale", and an attribute bag holding all five original columns —
company, field, well_name, formation and pressure 12.5 — not only
pressure. -/
theorem C1_amended :
    load_sheet c1Headers c1Rows =
      [{ row_index := 0
         company := some "Acme"
         field := some "North"
         well_name := some "W-1"
         formation := some "Shale"
         data := [("company", Cell.str "Acme"), ("field", Cell.str "North"),
                  ("well_name", Cell.str "W-1"), ("formation", Cell.str "Shale"),
                  ("pressure", Cell.float ⟨125, 1⟩)] }] := by decide

/-! ## Claim C2 — well-name dedup across the two patterns -/

/-- C2 is false as stated: the text "Well Name: Alpha-1 Well: Alpha-1"
contains "Well Name: Alpha-1" and, later in the text, "Well: Alpha-1", yet
extraction returns two entries, not ["Alpha-1"]: the token class
`[A-Za-z0-9_\-\s]` includes whitespace, so the first pattern's greedy capture
absorbs the following "Well" and yields "Alpha-1 Well". -/
theorem C2_counterexample :
    ("Well Name: Alpha-1 Well: Alpha-1" : String) =
      "Well Name: Alpha-1" ++ " Well: Alpha-1" ∧
    extract_well_names "Well Name: Alpha-1 Well: Alpha-1" =
      ["Alpha-1 Well", "Alpha-1"] ∧
    (["Alpha-1 Well", "Alpha-1"] : List String) ≠ ["Alpha-1"] := by decide

/-- C2 (amended): when each occurrence's token is terminated by a character
outside the token class (here a full stop), the two occurrences are indeed
collected and deduplicated case-insensitively into exactly ["Alpha-1"];
with only token-class characters (letters, digits, underscore, hyphen,
whitespace) between the occurrences the first capture instead absorbs the
following text. -/
theorem C2_amended :
    extract_well_names "Well Name: Alpha-1. Well: Alpha-1" = ["Alpha-1"] := by decide

/-! ## Claim C3 — the combined depth-range fallback -/

/-- C3: on "DEPTH 1000-500" (which no explicit start/end pattern matches)
the fallback assigns 1000.0 to depth_min and 500.0 to depth_max, unswapped;
in general, whenever both explicit searches produce nothing the result is
exactly the combined fallback (first captured number to depth_min, second to
depth_max, in pattern order), and whenever either explicit search produces a
value the fallback is not consulted. -/
theorem C3_depth_fallback :
    extract_depths "DEPTH 1000-500" = (some ⟨1000, 0⟩, some ⟨500, 0⟩) ∧
    (∀ t : String, search_first_float t start_patterns = none →
      search_first_float t end_patterns = none →
      extract_depths t = depth_range_fallback t) ∧
    (∀ t : String, ¬ (search_first_float t start_patterns = none ∧
        search_first_float t end_patterns = none) →
      extract_depths t =
        (search_first_float t start_patterns, search_first_float t end_patterns)) := by
  refine ⟨by decide, ?_, ?_⟩
  · intro t h1 h2
    unfold extract_depths
    rw [if_pos ⟨h1, h2⟩]
  · intro t h
    unfold extract_depths
    rw [if_neg h]

/-- Witness for C3: on "DEPTH 1000-500" both explicit searches are empty and
the fallback is used; on "Start Depth: 100.0 ... End Depth: 3500.5" the
explicit searches succeed and their values are returned directly. -/
theorem C3_depth_fallback_witness :
    extract_depths "DEPTH 1000-500" = depth_range_fallback "DEPTH 1000-500" ∧
    extract_depths "Start Depth: 100.0 ... End Depth: 3500.5" =
      (search_first_float "Start Depth: 100.0 ... End Depth: 3500.5" start_patterns,
       search_first_float "Start Depth: 100.0 ... End Depth: 3500.5" end_patterns) :=
  ⟨C3_depth_fallback.2.1 "DEPTH 1000-500" (by decide) (by decide),
   C3_depth_fallback.2.2 "Start Depth: 100.0 ... End Depth: 3500.5" (by decide)⟩

/-! ## Claim C5 — the "Not found" marker -/

/-- C5: the heuristic tier's well_names list is never empty, and when the
well-name extraction finds nothing it is exactly the singleton
["Not found"]. -/
theorem C5_not_found_marker : ∀ text : String,
    (load_with_heuristics text).well_names ≠ [] ∧
    (extract_well_names text = [] →
      (load_with_heuristics text).well_names = ["Not found"]) := by
  intro t
  constructor
  · by_cases h : extract_well_names t = [] <;>
      simp [load_with_heuristics, h]
  · intro h
    simp [load_with_heuristics, h]

/-- Witness for C5: the empty text yields no pattern match, and the summary's
well_names is exactly ["Not found"]. -/
theorem C5_not_found_marker_witness :
    (load_with_heuristics "").well_names = ["Not found"] :=
  (C5_not_found_marker "").2 (by decide)

/-! ## Claim C9 — header normalization -/

/-- C9 is false as stated: a header with two consecutive internal spaces
normalizes them to two underscores, not one ("A  B" gives "a__b", not
"a_b"), and an internal tab is not replaced at all ("A\tB" gives "a\tb"). -/
theorem C9_counterexample :
    normalize_header "A  B" = "a__b" ∧ ("a__b" : String) ≠ "a_b" ∧
    normalize_header "A\tB" = "a\tb" ∧ ("a\tb" : String) ≠ "a_b" := by decide

/-- C9 (amended): header normalization lowercases, trims surrounding
whitespace, and replaces each single space character by one underscore — a
run of k spaces becomes k underscores and non-space whitespace such as a tab
is preserved; consequently the result never contains a space character. -/
theorem C9_amended :
    (∀ h : String, ((normalize_header h).data.all (fun c => c ≠ ' ')) = true) ∧
    normalize_header " Well Name " = "well_name" ∧
    normalize_header "A  B" = "a__b" ∧
    normalize_header "A\tB" = "a\tb" := by
  refine ⟨?_, by decide, by decide, by decide⟩
  intro h
  simp only [List.all_eq_true, decide_eq_true_eq]
  intro c hc
  have hc2 : c ∈ ((pyStripL h.data).map asciiLower).map
      (fun c => if c = ' ' then '_' else c) := hc
  rcases List.mem_map.mp hc2 with ⟨d, _, rfl⟩
  by_cases hsp : d = ' ' <;> simp [hsp]

/-! ## Claim C4 — alias extraction in `_first_non_null` -/

/-- C4 is false as stated: with well_name a whitespace-only string "  " and
the later alias well holding the non-blank "Alpha", the claim says the blank
alias is not taken; the code takes it anyway, returning "  " through the
`str(value)` branch (for a present string, `value is not None and not
pd.isna(value)` always holds). -/
theorem C4_counterexample :
    pyStrip "  " = "" ∧
    first_non_null c4Row ["well_name", "well"] = some "  " ∧
    (some "  " : Option String) ≠ some "Alpha" := by decide

/-- C4 (amended): for each alias in order — an absent alias is skipped; a
present string value is always taken: stripped when its strip is non-blank,
and otherwise returned unchanged (so a blank or whitespace-only string alias
IS taken, unstripped); a present non-string value is taken coerced through
`str` unless it is the missing sentinel, which is skipped; and an empty alias
list yields null. -/
theorem C4_amended : ∀ (row : List (String × Cell)) (k : String) (keys : List String),
    first_non_null row [] = none ∧
    (dictGet row k = none →
      first_non_null row (k :: keys) = first_non_null row keys) ∧
    (∀ s, dictGet row k = some (Cell.str s) →
      first_non_null row (k :: keys) =
        (if pyStrip s ≠ "" then some (pyStrip s) else some s)) ∧
    (∀ v, dictGet row k = some v → cellIsNa v = true →
      first_non_null row (k :: keys) = first_non_null row keys) ∧
    (∀ v, dictGet row k = some v → cellIsNa v = false → (∀ s, v ≠ Cell.str s) →
      first_non_null row (k :: keys) = some (pyStr v)) := by
  intro row k keys
  refine ⟨rfl, ?_, ?_, ?_, ?_⟩
  · intro h
    simp [first_non_null, h]
  · intro s h
    simp [first_non_null, h, pyStr]
  · intro v h hna
    have hv : v = Cell.na := by
      cases v <;> simp [cellIsNa] at hna ⊢
    subst hv
    simp [first_non_null, h, cellIsNa]
  · intro v h hna hns
    cases v with
    | str s => exact absurd rfl (hns s)
    | na => simp [cellIsNa] at hna
    | float f => simp [first_non_null, h, cellIsNa]
    | int z => simp [first_non_null, h, cellIsNa]
    | bool b => simp [first_non_null, h, cellIsNa]

/-- Witness for C4 (amended): the string case applied to the concrete row
whose well_name value is the whitespace-only "  ". -/
theorem C4_amended_witness :
    first_non_null c4Row ["well_name", "well"] =
      (if pyStrip "  " ≠ "" then some (pyStrip "  ") else some "  ") :=
  (C4_amended c4Row "well_name" ["well"]).2.2.1 "  " (by decide)

/-! ## Claim C7 — atomic import -/

/-- C7: when the workbook cannot be opened, the import fails with the
IngestionError message carrying the underlying cause and the store is
returned exactly unchanged — zero new projects, sheets or records — while on
success the project row, all sheet rows and all record rows are committed
together in the same transaction. -/
theorem C7_atomic_import :
    ∀ (st : Store) (name : String) (desc : Option String) (cause : String)
      (sheetsData : List (String × List RowRec)),
    import_project st name desc (Except.error (ingestion_error_message cause)) =
      (some (ingestion_error_message cause), st) ∧
    import_project st name desc (Except.ok sheetsData) =
      (none, insert_import st name desc sheetsData) ∧
    (insert_import st name desc sheetsData).projects.length =
      st.projects.length + 1 ∧
    (insert_import st name desc sheetsData).sheets.length =
      st.sheets.length + sheetsData.length ∧
    (insert_import st name desc sheetsData).records.length =
      st.records.length + (sheetsData.map (fun p => p.2.length)).sum := by
  intro st name desc cause sd
  refine ⟨rfl, rfl, ?_, ?_, ?_⟩
  · simp [insert_import]
  · simp [insert_import]
  · simp [insert_import, List.length_flatten, List.map_map, Function.comp_def,
      List.length_map]

/-! ## The aggregator: per-step and per-fold characterizations
(shared by claims C6 and C8) -/

/-- One `compute_stats` loop step, company projection. -/
theorem statsStep_company (st : Stats) (r : DbRecord) :
    (statsStep st r).wells_by_company =
      (if truthyStr r.company then bump st.wells_by_company (r.company.getD "")
       else st.wells_by_company) := by
  cases hc : truthyStr r.company <;> cases hf : truthyStr r.field <;>
    cases hfo : truthyStr r.formation <;> simp [statsStep, hc, hf, hfo]

/-- One `compute_stats` loop step, field projection. -/
theorem statsStep_field (st : Stats) (r : DbRecord) :
    (statsStep st r).wells_by_field =
      (if truthyStr r.field then bump st.wells_by_field (r.field.getD "")
       else st.wells_by_field) := by
  cases hc : truthyStr r.company <;> cases hf : truthyStr r.field <;>
    cases hfo : truthyStr r.formation <;> simp [statsStep, hc, hf, hfo]

/-- One `compute_stats` loop step, formation projection. -/
theorem statsStep_formation (st : Stats) (r : DbRecord) :
    (statsStep st r).wells_by_formation =
      (if truthyStr r.formation then bump st.wells_by_formation (r.formation.getD "")
       else st.wells_by_formation) := by
  cases hc : truthyStr r.company <;> cases hf : truthyStr r.field <;>
    cases hfo : truthyStr r.formation <;> simp [statsStep, hc, hf, hfo]

/-- One `compute_stats` loop step, by-sheet projection: every record bumps
its sheet key exactly once. -/
theorem statsStep_sheet (st : Stats) (r : DbRecord) :
    (statsStep st r).wells_by_sheet = bump st.wells_by_sheet (sheetKeyOf r) := by
  cases hs : r.sheet <;> cases hc : truthyStr r.company <;>
    cases hf : truthyStr r.field <;> cases hfo : truthyStr r.formation <;>
      simp [statsStep, sheetKeyOf, hs, hc, hf, hfo]

/-- One `compute_stats` loop step, sheet-row-count projection: identical
update to the by-sheet projection. -/
theorem statsStep_sheet_rows (st : Stats) (r : DbRecord) :
    (statsStep st r).sheet_row_counts = bump st.sheet_row_counts (sheetKeyOf r) := by
  cases hs : r.sheet <;> cases hc : truthyStr r.company <;>
    cases hf : truthyStr r.field <;> cases hfo : truthyStr r.formation <;>
      simp [statsStep, sheetKeyOf, hs, hc, hf, hfo]

/-- One `compute_stats` loop step, row-bucket projection: every record bumps
its bucket label exactly once. -/
theorem statsStep_bucket (st : Stats) (r : DbRecord) :
    (statsStep st r).wells_per_row_bucket =
      bump st.wells_per_row_bucket (bucket_label r.row_index) := by
  cases hc : truthyStr r.company <;> cases hf : truthyStr r.field <;>
    cases hfo : truthyStr r.formation <;> simp [statsStep, hc, hf, hfo]

/-- The whole loop, company projection: only records with a truthy company
contribute, each exactly once. -/
theorem statsFold_company (rs : List DbRecord) : ∀ st : Stats,
    (rs.foldl statsStep st).wells_by_company =
      (companyKeys rs).foldl bump st.wells_by_company := by
  induction rs with
  | nil => intro st; rfl
  | cons r rest ih =>
    intro st
    rw [List.foldl_cons, ih]
    cases hc : truthyStr r.company <;>
      simp [companyKeys, List.filterMap_cons, hc, statsStep_company]

/-- The whole loop, field projection. -/
theorem statsFold_field (rs : List DbRecord) : ∀ st : Stats,
    (rs.foldl statsStep st).wells_by_field =
      (fieldKeys rs).foldl bump st.wells_by_field := by
  induction rs with
  | nil => intro st; rfl
  | cons r rest ih =>
    intro st
    rw [List.foldl_cons, ih]
    cases hf : truthyStr r.field <;>
      simp [fieldKeys, List.filterMap_cons, hf, statsStep_field]

/-- The whole loop, formation projection. -/
theorem statsFold_formation (rs : List DbRecord) : ∀ st : Stats,
    (rs.foldl statsStep st).wells_by_formation =
      (formationKeys rs).foldl bump st.wells_by_formation := by
  induction rs with
  | nil => intro st; rfl
  | cons r rest ih =>
    intro st
    rw [List.foldl_cons, ih]
    cases hfo : truthyStr r.formation <;>
      simp [formationKeys, List.filterMap_cons, hfo, statsStep_formation]

/-- The whole loop, by-sheet projection: every record contributes its sheet
key exactly once. -/
theorem statsFold_sheet (rs : List DbRecord) : ∀ st : Stats,
    (rs.foldl statsStep st).wells_by_sheet =
      (rs.map sheetKeyOf).foldl bump st.wells_by_sheet := by
  induction rs with
  | nil => intro st; rfl
  | cons r rest ih =>
    intro st
    rw [List.foldl_cons, ih]
    simp [statsStep_sheet]

/-- The whole loop, sheet-row-count projection. -/
theorem statsFold_sheet_rows (rs : List DbRecord) : ∀ st : Stats,
    (rs.foldl statsStep st).sheet_row_counts =
      (rs.map sheetKeyOf).foldl bump st.sheet_row_counts := by
  induction rs with
  | nil => intro st; rfl
  | cons r rest ih =>
    intro st
    rw [List.foldl_cons, ih]
    simp [statsStep_sheet_rows]

/-- The whole loop, row-bucket projection. -/
theorem statsFold_bucket (rs : List DbRecord) : ∀ st : Stats,
    (rs.foldl statsStep st).wells_per_row_bucket =
      (rs.map (fun r => bucket_label r.row_index)).foldl bump
        st.wells_per_row_bucket := by
  induction rs with
  | nil => intro st; rfl
  | cons r rest ih =>
    intro st
    rw [List.foldl_cons, ih]
    simp [statsStep_bucket]

/-! ## Claim C6 — exclusion from the per-field groupings -/

/-- C6 is false as stated: a record whose company is the whitespace-only
(blank) string "   " is nevertheless counted in wells_by_company under that
literal key — Python truthiness only excludes None and the empty string —
while it is also counted once in the by-sheet grouping and once in the
"0-9" row bucket. -/
theorem C6_counterexample :
    pyStrip "   " = "" ∧
    (compute_stats [c6Record]).wells_by_company = [("   ", 1)] ∧
    (compute_stats [c6Record]).wells_by_company ≠ [] ∧
    (compute_stats [c6Record]).wells_by_sheet = [("A", 1)] ∧
    (compute_stats [c6Record]).wells_per_row_bucket = [("0-9", 1)] := by decide

/-- C6 (amended): a record is excluded from the company (field, formation)
grouping exactly when that field is None or the empty string — a
whitespace-only string is counted under its literal value — and every record
is counted exactly once in the by-sheet grouping (under its sheet name, or
"Unknown") and once in the row bucket labelled from row_index // 10: each
grouping equals the occurrence count, in first-seen order, of the
corresponding key list. -/
theorem C6_amended : ∀ rs : List DbRecord,
    (compute_stats rs).wells_by_company = countKeys (companyKeys rs) ∧
    (compute_stats rs).wells_by_field = countKeys (fieldKeys rs) ∧
    (compute_stats rs).wells_by_formation = countKeys (formationKeys rs) ∧
    (compute_stats rs).wells_by_sheet = countKeys (rs.map sheetKeyOf) ∧
    (compute_stats rs).wells_per_row_bucket =
      countKeys (rs.map (fun r => bucket_label r.row_index)) :=
  fun rs =>
    ⟨statsFold_company rs emptyStats, statsFold_field rs emptyStats,
     statsFold_formation rs emptyStats, statsFold_sheet rs emptyStats,
     statsFold_bucket rs emptyStats⟩

/-! ## Claim C8 — sheet_row_counts duplicates wells_by_sheet -/

/-- C8: for every collection of records, the sheet_row_counts mapping has
exactly the same keys and counts (and even the same first-seen order) as the
wells_by_sheet grouping. -/
theorem C8_sheet_counts_identical : ∀ rs : List DbRecord,
    (compute_stats rs).wells_by_sheet = (compute_stats rs).sheet_row_counts := by
  intro rs
  unfold compute_stats
  rw [statsFold_sheet rs emptyStats, statsFold_sheet_rows rs emptyStats]
  rfl

/-! ## Claim C10 — trigger keywords are themselves kept as curve names -/

/-- A list none of whose characters match the predicate is unchanged by
`dropWhile`. -/
theorem dropWhile_eq_self_of_all {p : Char → Bool} :
    ∀ l : List Char, (∀ c ∈ l, p c = false) → l.dropWhile p = l := by
  intro l h
  cases l with
  | nil => rfl
  | cons c t => simp [List.dropWhile_cons, h c (List.mem_cons_self c t)]

/-- A character list with no whitespace characters strips to itself. -/
theorem pyStripL_eq_self {l : List Char} (h : ∀ c ∈ l, pyIsSpace c = false) :
    pyStripL l = l := by
  unfold pyStripL
  rw [dropWhile_eq_self_of_all l h,
    dropWhile_eq_self_of_all l.reverse (fun c hc => h c (List.mem_reverse.mp hc)),
    List.reverse_reverse]

/-- A printable-ASCII character (code 33–126) is not Python whitespace. -/
theorem not_space_of_toNat_range {c : Char} (h1 : 33 ≤ c.toNat)
    (h2 : c.toNat ≤ 126) : pyIsSpace c = false := by
  simp only [pyIsSpace, decide_eq_false_iff_not]
  omega

/-- An ASCII letter is not Python whitespace. -/
theorem isAsciiAlpha_not_space {c : Char} (h : isAsciiAlpha c = true) :
    pyIsSpace c = false := by
  simp only [isAsciiAlpha, Bool.or_eq_true, decide_eq_true_eq] at h
  exact not_space_of_toNat_range (by omega) (by omega)

/-- A character of the curve-token tail class is not Python whitespace. -/
theorem curveTailCls_not_space {c : Char} (h : curveTailCls c = true) :
    pyIsSpace c = false := by
  simp only [curveTailCls, isAsciiAlpha, isAsciiDigit, Bool.or_eq_true,
    decide_eq_true_eq] at h
  rcases h with (h | h) | h | h | h | h
  · exact not_space_of_toNat_range (by omega) (by omega)
  · exact not_space_of_toNat_range (by omega) (by omega)
  · exact not_space_of_toNat_range (by omega) (by omega)
  · subst h; decide
  · subst h; decide
  · subst h; decide

/-- A token matching the curve-token shape is non-empty and strips to
itself. -/
theorem tokenShape_strip_self {s : String} (h : tokenShape s = true) :
    pyStrip s = s ∧ s ≠ "" := by
  unfold tokenShape at h
  cases hd : s.data with
  | nil => rw [hd] at h; simp at h
  | cons c rest =>
    rw [hd] at h
    simp only [Bool.and_eq_true, decide_eq_true_eq, List.all_eq_true] at h
    obtain ⟨hα, _, _, hall⟩ := h
    have hns : ∀ d ∈ s.data, pyIsSpace d = false := by
      intro d hdm
      rw [hd] at hdm
      rcases List.mem_cons.mp hdm with rfl | hdm2
      · exact isAsciiAlpha_not_space hα
      · exact curveTailCls_not_space (hall d hdm2)
    refine ⟨?_, ?_⟩
    · unfold pyStrip
      rw [pyStripL_eq_self hns]
    · intro he
      rw [he] at hd
      simp at hd

/-- Membership up to case in the output of `_unique_preserve`, for an item
that strips to itself, as long as its lowercase key is not already in the
seen set. -/
theorem uniquePreserveGo_mem_lower :
    ∀ (items seen : List String) (item : String),
      item ∈ items → pyStrip item = item → item ≠ "" → pyLower item ∉ seen →
      ∃ u ∈ uniquePreserveGo seen items, pyLower u = pyLower item := by
  intro items
  induction items with
  | nil => intro seen item h; cases h
  | cons a rest ih =>
    intro seen item hmem hstrip hne hseen
    rcases List.mem_cons.mp hmem with rfl | hmem2
    · refine ⟨item, ?_, rfl⟩
      simp only [uniquePreserveGo, hstrip]
      rw [if_neg hne, if_neg hseen]
      exact List.mem_cons_self item _
    · by_cases hk0 : pyStrip a = ""
      · simp only [uniquePreserveGo]
        rw [if_pos hk0]
        exact ih seen item hmem2 hstrip hne hseen
      · by_cases hk1 : pyLower (pyStrip a) ∈ seen
        · simp only [uniquePreserveGo]
          rw [if_neg hk0, if_pos hk1]
          exact ih seen item hmem2 hstrip hne hseen
        · by_cases heq : pyLower item = pyLower (pyStrip a)
          · refine ⟨pyStrip a, ?_, heq.symm⟩
            simp only [uniquePreserveGo]
            rw [if_neg hk0, if_neg hk1]
            exact List.mem_cons_self _ _
          · have hnotin : pyLower item ∉ (pyLower (pyStrip a) :: seen) := by
              intro hx
              rcases List.mem_cons.mp hx with hx1 | hx2
              · exact heq hx1
              · exact hseen hx2
            obtain ⟨u, hu, hlu⟩ :=
              ih (pyLower (pyStrip a) :: seen) item hmem2 hstrip hne hnotin
            refine ⟨u, ?_, hlu⟩
            simp only [uniquePreserveGo]
            rw [if_neg hk0, if_neg hk1]
            exact List.mem_cons_of_mem _ hu

/-- Membership up to case in `_unique_preserve`, from the top. -/
theorem unique_preserve_mem_lower {item : String} {items : List String}
    (hmem : item ∈ items) (hstrip : pyStrip item = item) (hne : item ≠ "") :
    ∃ u ∈ unique_preserve items, pyLower u = pyLower item :=
  uniquePreserveGo_mem_lower items [] item hmem hstrip hne (by simp)

/-- C10: on the line "CURVE GR NPHI" the trigger keyword CURVE is itself kept,
as the first extracted curve name, before GR and NPHI; and in general, on any
candidate line (one containing "curve", "mnemonic" or "mnem",
case-insensitively), every delimited token that matches the token shape —
the trigger keyword included — appears, up to case, among the extracted
curve names. -/
theorem C10_trigger_token_kept :
    extract_curve_names "CURVE GR NPHI" = ["CURVE", "GR", "NPHI"] ∧
    ∀ (text line token : String),
      line ∈ pySplitlines text → hasCurveTrigger line = true →
      token ∈ pySplitDelims line → tokenShape token = true →
      ∃ u ∈ extract_curve_names text, pyLower u = pyLower token := by
  refine ⟨by decide, ?_⟩
  intro text line token hline htrig htok hshape
  have hne : line ≠ "" := by
    rintro rfl
    exact absurd htrig (by decide)
  have hmemtok : token ∈ ((pySplitlines text).map curveLineTokens).flatten := by
    refine List.mem_flatten.mpr ⟨curveLineTokens line, List.mem_map_of_mem _ hline, ?_⟩
    simp only [curveLineTokens]
    rw [if_neg hne, if_pos htrig]
    exact List.mem_filter.mpr ⟨htok, hshape⟩
  obtain ⟨hstrip, hne2⟩ := tokenShape_strip_self hshape
  exact unique_preserve_mem_lower hmemtok hstrip hne2

/-- Witness for C10: the single-line text "CURVE GR NPHI", whose token CURVE
is both the trigger keyword and a shape-matching token, appears among the
extracted curve names. -/
theorem C10_trigger_token_kept_witness :
    ∃ u ∈ extract_curve_names "CURVE GR NPHI", pyLower u = pyLower "CURVE" :=
  C10_trigger_token_kept.2 "CURVE GR NPHI" "CURVE GR NPHI" "CURVE"
    (by decide) (by decide) (by decide) (by decide)
